import Mathlib

/-!
Shallow embedding of the .SER decoder in src/sereader/convert_to_png.py.

Bytes are modelled as natural numbers; a Python bytes object is a List Nat.
Python slicing byte_array[a:b] clamps to the buffer, which pySlice mirrors.
int.from_bytes(_, little) is intFromBytesLE and is total (an empty slice
decodes to 0).  struct.unpack with format <d (resp. <H) requires a slice of
exactly 8 (resp. 2) bytes and otherwise raises struct.error, modelled by the
outOfBounds error.  A decoded float64 is represented by its 64-bit pattern
(a Nat below 2^64); Python float equality on such patterns is pyFloatEq.
Python assert failures and raised exceptions are Except.error values.
-/

/-- Failure modes of the decoder: each constructor stands for one Python
assertion message or raised exception class in convert_to_png.py. -/
inductive Err where
  | invalidByteOrder
  | invalidSeriesID
  | unsupportedVersion
  | unsupportedDataType
  | unsupportedTagType
  | invalidElementCount
  | tagTypeMismatch
  | anisotropicCalibrationMismatch
  | dimensionArrayMisaligned
  | outOfBounds
  | nameError
  | unsupportedSampleEncoding
deriving Repr, DecidableEq

/-- Python slice byte_array[a:b] for nonnegative bounds: clamped to the
buffer, empty when a is at or past the end or past b. -/
def pySlice (l : List Nat) (a b : Nat) : List Nat := (l.take b).drop a

/-- Python int.from_bytes(bs, little): total, empty input gives 0. -/
def intFromBytesLE : List Nat → Nat
  | [] => 0
  | b :: rest => b + 256 * intFromBytesLE rest

/-- struct.unpack with format <d: requires exactly 8 bytes, else raises
struct.error.  The result is the 64-bit pattern of the double. -/
def unpackF64 (bs : List Nat) : Except Err Nat :=
  if bs.length = 8 then .ok (intFromBytesLE bs) else .error .outOfBounds

/-- struct.unpack with format <H: requires exactly 2 bytes, else raises
struct.error. -/
def unpackU16 (bs : List Nat) : Except Err Nat :=
  if bs.length = 2 then .ok (intFromBytesLE bs) else .error .outOfBounds

/-- An IEEE-754 binary64 bit pattern denotes NaN when its exponent field is
all ones and its mantissa is nonzero. -/
def isNaNBits (n : Nat) : Bool := (n / 2 ^ 52) % 2 ^ 11 == 2047 && n % 2 ^ 52 != 0

/-- The two IEEE-754 binary64 zero patterns, +0.0 and -0.0. -/
def isZeroBits (n : Nat) : Bool := n == 0 || n == 2 ^ 63

/-- Python float equality on two binary64 bit patterns: the two zeros are
equal to each other, NaN is equal to nothing, and every other value is
equal exactly to its own bit pattern. -/
def pyFloatEq (a b : Nat) : Bool :=
  (isZeroBits a && isZeroBits b) || (a == b && !isNaNBits a)

/-- True exactly on Except.ok results. -/
def exceptIsOk {α : Type} : Except Err α → Bool
  | .ok _ => true
  | .error _ => false

/-- check_series_ID_and_Version: asserts the byte-order marker 0x4949 at
bytes 0..2, the series ID 0x197 at bytes 2..4, and a version of 0x210 or
0x220 at bytes 4..6; returns the version. -/
def check_series_ID_and_Version (buf : List Nat) : Except Err Nat :=
  if intFromBytesLE (pySlice buf 0 2) = 0x4949 then
    if intFromBytesLE (pySlice buf 2 4) = 0x197 then
      if intFromBytesLE (pySlice buf 4 6) = 0x210
          ∨ intFromBytesLE (pySlice buf 4 6) = 0x220 then
        .ok (intFromBytesLE (pySlice buf 4 6))
      else .error .unsupportedVersion
    else .error .invalidSeriesID
  else .error .invalidByteOrder

/-- get_data_and_tag_ID: the data type ID at bytes 6..10 passes when it is
0x4120 or 0x4122 (the logged branches) or 0x1420 or 0x1422 (the list the
else-branch assert checks); the tag type ID at bytes 10..14 passes when it
is 0x4152 or 0x4142. -/
def get_data_and_tag_ID (buf : List Nat) : Except Err (Nat × Nat) :=
  let d := intFromBytesLE (pySlice buf 6 10)
  let t := intFromBytesLE (pySlice buf 10 14)
  if d = 0x4120 ∨ d = 0x4122 ∨ d = 0x1420 ∨ d = 0x1422 then
    if t = 0x4152 ∨ t = 0x4142 then .ok (d, t) else .error .unsupportedTagType
  else .error .unsupportedDataType

/-- get_total_and_valid_element_num: reads the counts at bytes 14..18 and
18..22 and asserts total is at least valid. -/
def get_total_and_valid_element_num (buf : List Nat) : Except Err (Nat × Nat) :=
  let tot := intFromBytesLE (pySlice buf 14 18)
  let val := intFromBytesLE (pySlice buf 18 22)
  if val ≤ tot then .ok (tot, val) else .error .invalidElementCount

/-- get_Offset_Array_Offset: version 0x210 gives a 4-byte offset field read
at bytes 22..26, version 0x220 an 8-byte field read at bytes 22..30; any
other version leaves the width local unbound (a NameError at its first
use). -/
def get_Offset_Array_Offset (buf : List Nat) (v : Nat) : Except Err (Nat × Nat) :=
  if v = 0x210 then .ok (4, intFromBytesLE (pySlice buf 22 26))
  else if v = 0x220 then .ok (8, intFromBytesLE (pySlice buf 22 30))
  else .error .nameError

/-- get_Number_of_Dimensions: 4-byte integer at byte 22 + W. -/
def get_Number_of_Dimensions (buf : List Nat) (w : Nat) : Nat :=
  intFromBytesLE (pySlice buf (22 + w) (22 + w + 4))

/-- The decoded series header, as the main script holds it in locals. -/
structure SeriesHeader where
  seriesVersion : Nat
  dataTypeID : Nat
  tagTypeID : Nat
  totalElementCount : Nat
  validElementCount : Nat
  offsetWidth : Nat
  offsetArrayOffset : Nat
  numDimensions : Nat
deriving Repr, DecidableEq

/-- The header part of the main script: the five header reads in program
order, stopping at the first failed assert. -/
def headerPhase (buf : List Nat) : Except Err SeriesHeader :=
  match check_series_ID_and_Version buf with
  | .error e => .error e
  | .ok v =>
    match get_data_and_tag_ID buf with
    | .error e => .error e
    | .ok (d, t) =>
      match get_total_and_valid_element_num buf with
      | .error e => .error e
      | .ok (tot, val) =>
        match get_Offset_Array_Offset buf v with
        | .error e => .error e
        | .ok (w, oao) =>
          .ok ⟨v, d, t, tot, val, w, oao, get_Number_of_Dimensions buf w⟩

/-- get_Dimension_Size: 4-byte integer at byte 26 + W + dm, where dm is the
running dimension-array cursor of the main loop. -/
def get_Dimension_Size (buf : List Nat) (w dm : Nat) : Nat :=
  intFromBytesLE (pySlice buf (26 + w + dm) (26 + w + dm + 4))

/-- get_Calibration_Element: two float64 fields at bytes 30 + W + dm and
38 + W + dm, then a 4-byte index; returned in the order
(element, offsetBits, deltaBits) as in the source. -/
def get_Calibration_Element (buf : List Nat) (w dm : Nat) :
    Except Err (Nat × Nat × Nat) :=
  match unpackF64 (pySlice buf (30 + w + dm) (30 + w + dm + 8)) with
  | .error e => .error e
  | .ok co =>
    match unpackF64 (pySlice buf (30 + w + dm + 8) (30 + w + dm + 16)) with
    | .error e => .error e
    | .ok cd =>
      .ok (intFromBytesLE (pySlice buf (30 + w + dm + 16) (30 + w + dm + 20)), co, cd)

/-- get_Description_Length: 4-byte integer at byte 50 + W + dm. -/
def get_Description_Length (buf : List Nat) (w dm : Nat) : Nat :=
  intFromBytesLE (pySlice buf (50 + w + dm) (50 + w + dm + 4))

/-- get_Element_Description: the raw bytes of the description string,
dl bytes starting at byte 54 + W + dm (clamped by Python slicing). -/
def get_Element_Description (buf : List Nat) (w dl dm : Nat) : List Nat :=
  pySlice buf (54 + w + dm) (54 + w + dm + dl)

/-- get_Units_Length: 4-byte integer at byte 54 + W + dl + dm. -/
def get_Units_Length (buf : List Nat) (w dl dm : Nat) : Nat :=
  intFromBytesLE (pySlice buf (54 + w + dl + dm) (54 + w + dl + dm + 4))

/-- get_Units_Description: absent when the units length is 0, else the raw
bytes of the units string at byte 58 + W + dl + dm. -/
def get_Units_Description (buf : List Nat) (w dl ul dm : Nat) : Option (List Nat) :=
  if ul = 0 then none
  else some (pySlice buf (58 + w + dl + dm) (58 + w + dl + dm + ul))

/-- One decoded dimension descriptor, fields as the main loop stores them. -/
structure DimRecord where
  dimensionSize : Nat
  calibrationElement : Nat
  calibrationOffsetBits : Nat
  calibrationDeltaBits : Nat
  descriptionLength : Nat
  descriptionBytes : List Nat
  unitsLength : Nat
  unitsBytes : Option (List Nat)
deriving Repr, DecidableEq

/-- The dimension loop of the main script: iterates the remaining count n
with the running cursor dm, which the source advances only by
descriptionLength + unitsLength at the end of each iteration.  Returns the
decoded records and the final cursor value DM_offset. -/
def dimLoop (buf : List Nat) (w : Nat) : Nat → Nat → Except Err (List DimRecord × Nat)
  | 0, dm => .ok ([], dm)
  | Nat.succ n, dm =>
    let sz := get_Dimension_Size buf w dm
    match get_Calibration_Element buf w dm with
    | .error e => .error e
    | .ok (ce, co, cd) =>
      let dl := get_Description_Length buf w dm
      let desc := get_Element_Description buf w dl dm
      let ul := get_Units_Length buf w dl dm
      let units := get_Units_Description buf w dl ul dm
      match dimLoop buf w n (dm + dl + ul) with
      | .error e => .error e
      | .ok (rest, dmEnd) => .ok (⟨sz, ce, co, cd, dl, desc, ul, units⟩ :: rest, dmEnd)

/-- The dimension phase of the main script: run the loop over all
numDimensions descriptors, then assert that
26 + W + (32 * N + DM_offset) equals the header-declared offsetArrayOffset. -/
def dimensionPhase (buf : List Nat) (w n oao : Nat) : Except Err (List DimRecord) :=
  match dimLoop buf w n 0 with
  | .error e => .error e
  | .ok (recs, dm) =>
    if 26 + w + (32 * n + dm) = oao then .ok recs else .error .dimensionArrayMisaligned

/-- get_Data_Offset_Array: the loop keeps the slice start fixed at
offsetArrayOffset while the slice end grows by W each iteration, so element
i is decoded from the (i+1)*W-byte prefix of the array region. -/
def get_Data_Offset_Array (buf : List Nat) (oao v n : Nat) : Except Err (List Nat) :=
  if v = 0x210 ∨ v = 0x220 then
    let w := if v = 0x210 then 4 else 8
    .ok ((List.range n).map fun i => intFromBytesLE (pySlice buf oao (oao + (i + 1) * w)))
  else .error .nameError

/-- get_Tag_Offset_Array: same growing-slice pattern as the data offsets,
starting at offsetArrayOffset + dataLen * W. -/
def get_Tag_Offset_Array (buf : List Nat) (oao v n dataLen : Nat) : Except Err (List Nat) :=
  if v = 0x210 ∨ v = 0x220 then
    let w := if v = 0x210 then 4 else 8
    let start := oao + dataLen * w
    .ok ((List.range n).map fun i => intFromBytesLE (pySlice buf start (start + (i + 1) * w)))
  else .error .nameError

/-- get_TimeOnlyTag: re-reads a 4-byte discriminator at the tag offset,
asserts it equals the header tag type ID, then reads the 4-byte time
stamp. -/
def get_TimeOnlyTag (buf : List Nat) (tOff hid : Nat) : Except Err Nat :=
  if intFromBytesLE (pySlice buf tOff (tOff + 4)) = hid then
    .ok (intFromBytesLE (pySlice buf (tOff + 4) (tOff + 8)))
  else .error .tagTypeMismatch

/-- get_Time_and_PositionTag: discriminator check, the 4-byte time stamp,
position X from bytes tOff+8..tOff+16, and position Y from the slice
byte_array[TagOffset + 16 : TagOffset + 16] exactly as written in the
source - an empty slice, so the final unpack always raises. -/
def get_Time_and_PositionTag (buf : List Nat) (tOff hid : Nat) :
    Except Err (Nat × Nat × Nat) :=
  if intFromBytesLE (pySlice buf tOff (tOff + 4)) = hid then
    match unpackF64 (pySlice buf (tOff + 8) (tOff + 16)) with
    | .error e => .error e
    | .ok px =>
      match unpackF64 (pySlice buf (tOff + 16) (tOff + 16)) with
      | .error e => .error e
      | .ok py => .ok (intFromBytesLE (pySlice buf (tOff + 4) (tOff + 8)), px, py)
  else .error .tagTypeMismatch

/-- The decoded header of a 1-D data element. -/
structure OneDElementHeader where
  calibrationOffsetBits : Nat
  calibrationDeltaBits : Nat
  calibrationElement : Nat
  dataType : Nat
  dataArraySize : Nat
deriving Repr, DecidableEq

/-- get_1DdataElementHeader: the tag-type branch assigns byte_offset =
DataOffset + 0 in both supported cases (any other tag ID leaves it unbound);
then two float64 calibration fields, a 4-byte element index, a 2-byte data
type and a 4-byte sample count. -/
def get_1DdataElementHeader (buf : List Nat) (off dataID tagID : Nat) :
    Except Err OneDElementHeader :=
  if tagID = 0x4152 ∨ tagID = 0x4142 then
    match unpackF64 (pySlice buf off (off + 8)) with
    | .error e => .error e
    | .ok co =>
      match unpackF64 (pySlice buf (off + 8) (off + 16)) with
      | .error e => .error e
      | .ok cd =>
        match unpackU16 (pySlice buf (off + 20) (off + 22)) with
        | .error e => .error e
        | .ok dt =>
          .ok ⟨co, cd, intFromBytesLE (pySlice buf (off + 16) (off + 20)), dt,
            intFromBytesLE (pySlice buf (off + 22) (off + 26))⟩
  else .error .nameError

/-- The decoded header of a 2-D data element. -/
structure TwoDElementHeader where
  calibrationOffsetXBits : Nat
  calibrationDeltaXBits : Nat
  calibrationElementX : Nat
  calibrationOffsetYBits : Nat
  calibrationDeltaYBits : Nat
  calibrationElementY : Nat
  dataType : Nat
  dataArraySizeX : Nat
  dataArraySizeY : Nat
deriving Repr, DecidableEq

/-- get_2DdataElementHeader: reads the X calibration triple at the data
offset and the Y triple immediately after, asserts that the X and Y offsets
and the X and Y deltas compare equal as Python floats, then reads the
2-byte data type and the two 4-byte sizes. -/
def get_2DdataElementHeader (buf : List Nat) (off dataID tagID : Nat) :
    Except Err TwoDElementHeader :=
  if tagID = 0x4152 ∨ tagID = 0x4142 then
    match unpackF64 (pySlice buf off (off + 8)) with
    | .error e => .error e
    | .ok coX =>
      match unpackF64 (pySlice buf (off + 8) (off + 16)) with
      | .error e => .error e
      | .ok cdX =>
        match unpackF64 (pySlice buf (off + 20) (off + 28)) with
        | .error e => .error e
        | .ok coY =>
          match unpackF64 (pySlice buf (off + 28) (off + 36)) with
          | .error e => .error e
          | .ok cdY =>
            if pyFloatEq coX coY then
              if pyFloatEq cdX cdY then
                match unpackU16 (pySlice buf (off + 40) (off + 42)) with
                | .error e => .error e
                | .ok dt =>
                  .ok ⟨coX, cdX, intFromBytesLE (pySlice buf (off + 16) (off + 20)),
                    coY, cdY, intFromBytesLE (pySlice buf (off + 36) (off + 40)), dt,
                    intFromBytesLE (pySlice buf (off + 42) (off + 46)),
                    intFromBytesLE (pySlice buf (off + 46) (off + 50))⟩
              else .error .anisotropicCalibrationMismatch
            else .error .anisotropicCalibrationMismatch
  else .error .nameError

/-- Group a byte list into 16-bit little-endian unsigned samples. -/
def toU16List : List Nat → List Nat
  | a :: b :: rest => (a + 256 * b) :: toU16List rest
  | _ => []

/-- get_2DdataElementData (the second def of that name, the one visible at
call time): sample bytes start at DataOffset + 50; only data type 2 assigns
the byte size (any other leaves it unbound, a NameError at its use); the
unpack of sx * sy 16-bit values requires exactly that many bytes. -/
def get_2DdataElementData (buf : List Nat) (off dataID dt sx sy : Nat) :
    Except Err (List Nat) :=
  if dt = 2 then
    let bs := pySlice buf (off + 50) (off + 50 + sx * sy * 2)
    if bs.length = 2 * (sx * sy) then .ok (toU16List bs) else .error .outOfBounds
  else .error .nameError

/-- The names bound by def statements in convert_to_png.py, in file order
(get_2DdataElementData is defined twice; the later def shadows the
earlier). -/
def moduleDefNames : List String :=
  ["check_series_ID_and_Version", "get_data_and_tag_ID",
   "get_total_and_valid_element_num", "get_Offset_Array_Offset",
   "get_Number_of_Dimensions", "get_Dimension_Size", "get_Calibration_Element",
   "get_Description_Length", "get_Element_Description", "get_Units_Length",
   "get_Units_Description", "get_Data_Offset_Array", "get_Tag_Offset_Array",
   "get_TimeOnlyTag", "get_Time_and_PositionTag", "get_1DdataElementHeader",
   "get_2DdataElementData", "get_2DdataElementHeader", "get_2DdataElementData",
   "save_2DdataElemwntAsImage"]

/-- The global name the 1-D branch of the main loop calls for its sample
data.  No def in the module binds it. -/
def oneD_data_name : String := "get_1DdataElementData"

/-- Modelled from the spec: the repository calls get_1DdataElementData but
defines no such function, so its body does not exist in the source.  Per the
spec, the 1-D sample reader takes the sample count from the element header,
reads sampleCount contiguous 16-bit unsigned samples (which follow the
26-byte 1-D element header) when the data type code denotes the 16-bit
unsigned encoding (code 2), and fails with UnsupportedSampleEncoding on any
other data type code. -/
def spec_1DdataElementData (buf : List Nat) (off dt n : Nat) : Except Err (List Nat) :=
  if dt = 2 then
    let bs := pySlice buf (off + 26) (off + 26 + 2 * n)
    if bs.length = 2 * n then .ok (toU16List bs) else .error .outOfBounds
  else .error .unsupportedSampleEncoding

/-- The 1-D branch of the main element loop: decode the element header,
then call the sample reader by its global name.  Python resolves that name
in the module globals; since no def binds it, the call raises NameError. -/
def oneDBranch (buf : List Nat) (off dataID tagID : Nat) :
    Except Err (OneDElementHeader × List Nat) :=
  match get_1DdataElementHeader buf off dataID tagID with
  | .error e => .error e
  | .ok h =>
    match (if moduleDefNames.contains oneD_data_name then
        spec_1DdataElementData buf off h.dataType h.dataArraySize
      else .error .nameError) with
    | .error e => .error e
    | .ok data => .ok (h, data)

/-- The decoded data of one element: the 1-D or 2-D variant. -/
inductive ElemData where
  | oneD : OneDElementHeader → List Nat → ElemData
  | twoD : TwoDElementHeader → List Nat → ElemData
deriving Repr, DecidableEq

/-- What the main loop stores for one element: time stamp and position tag
(when the tag type provides them) and the decoded data (when the data type
is one of the two branch cases). -/
structure ElementResult where
  timeStamp : Option Nat
  positionTag : Option (Nat × Nat)
  elemData : Option ElemData
deriving Repr, DecidableEq

/-- The tag part of one element-loop iteration: TimeOnly for tag ID 0x4152,
time-and-position for 0x4142, nothing otherwise. -/
def tagPart (buf : List Nat) (tagID tOff : Nat) :
    Except Err (Option Nat × Option (Nat × Nat)) :=
  if tagID = 0x4152 then
    match get_TimeOnlyTag buf tOff tagID with
    | .error e => .error e
    | .ok ts => .ok (some ts, none)
  else if tagID = 0x4142 then
    match get_Time_and_PositionTag buf tOff tagID with
    | .error e => .error e
    | .ok (ts, px, py) => .ok (some ts, some (px, py))
  else .ok (none, none)

/-- The data part of one element-loop iteration: the 1-D branch for data ID
0x4120, the 2-D branch for 0x4122, nothing otherwise. -/
def dataPart (buf : List Nat) (dataID tagID dOff : Nat) :
    Except Err (Option ElemData) :=
  if dataID = 0x4120 then
    match oneDBranch buf dOff dataID tagID with
    | .error e => .error e
    | .ok (h, arr) => .ok (some (.oneD h arr))
  else if dataID = 0x4122 then
    match get_2DdataElementHeader buf dOff dataID tagID with
    | .error e => .error e
    | .ok h =>
      match get_2DdataElementData buf dOff dataID h.dataType h.dataArraySizeX h.dataArraySizeY with
      | .error e => .error e
      | .ok arr => .ok (some (.twoD h arr))
  else .ok none

/-- One iteration of the main element loop, in source order: the tag read,
then the unconditional a = get_2DdataElementHeader call of line 668, then
the data branch selected by the data type ID. -/
def processElement (buf : List Nat) (tagID dataID tOff dOff : Nat) :
    Except Err ElementResult :=
  match tagPart buf tagID tOff with
  | .error e => .error e
  | .ok (ts, pos) =>
    match get_2DdataElementHeader buf dOff dataID tagID with
    | .error e => .error e
    | .ok _a =>
      match dataPart buf dataID tagID dOff with
      | .error e => .error e
      | .ok d => .ok ⟨ts, pos, d⟩

/-- The element loop over the zipped tag and data offset arrays. -/
def elementLoop (buf : List Nat) (tagID dataID : Nat) :
    List (Nat × Nat) → Except Err (List ElementResult)
  | [] => .ok []
  | (tOff, dOff) :: rest =>
    match processElement buf tagID dataID tOff dOff with
    | .error e => .error e
    | .ok r =>
      match elementLoop buf tagID dataID rest with
      | .error e => .error e
      | .ok rs => .ok (r :: rs)

/-- The decoded series: everything the main script accumulates. -/
structure SeriesDocument where
  header : SeriesHeader
  dims : List DimRecord
  dataOffsets : List Nat
  tagOffsets : List Nat
  elements : List ElementResult
deriving Repr, DecidableEq

/-- The part of the main script after the dimension-array alignment assert:
data offset array, tag offset array, then the element loop. -/
def restPhase (buf : List Nat) (h : SeriesHeader) (dims : List DimRecord) :
    Except Err SeriesDocument :=
  match get_Data_Offset_Array buf h.offsetArrayOffset h.seriesVersion h.numDimensions with
  | .error e => .error e
  | .ok dOffs =>
    match get_Tag_Offset_Array buf h.offsetArrayOffset h.seriesVersion h.numDimensions dOffs.length with
    | .error e => .error e
    | .ok tOffs =>
      match elementLoop buf h.tagTypeID h.dataTypeID (tOffs.zip dOffs) with
      | .error e => .error e
      | .ok elems => .ok ⟨h, dims, dOffs, tOffs, elems⟩

/-- The whole decode pipeline of the main script. -/
def decodeSeries (buf : List Nat) : Except Err SeriesDocument :=
  match headerPhase buf with
  | .error e => .error e
  | .ok h =>
    match dimensionPhase buf h.offsetWidth h.numDimensions h.offsetArrayOffset with
    | .error e => .error e
    | .ok dims => restPhase buf h dims

/-- An 8-byte buffer holding the little-endian words 1 and 2: the data
offset array region of a two-element version-0x210 file. -/
def bufC1 : List Nat := [1, 0, 0, 0, 2, 0, 0, 0]

/-- A 16-byte buffer: data offsets 1, 2, then tag offsets 3, 4, for a
two-element version-0x210 file whose offset arrays start at byte 0. -/
def bufC1t : List Nat := [1, 0, 0, 0, 2, 0, 0, 0, 3, 0, 0, 0, 4, 0, 0, 0]

/-- A 66-byte buffer for a width-4 file with two dimension descriptors,
both with empty description and units strings: descriptor 0 starts at byte
30 with size field 5, and the bytes at 62..66 (where descriptor 1 starts
per the format, 32 bytes after descriptor 0) hold the word 7. -/
def bufC2 : List Nat :=
  List.replicate 30 0 ++ [5, 0, 0, 0] ++ List.replicate 28 0 ++ [7, 0, 0, 0]

/-- A complete 24-byte time-and-position tag at offset 0: discriminator
0x4142, time stamp 42, position X 1.0 at bytes 8..16 and position Y 2.0 at
bytes 16..24. -/
def bufC3 : List Nat :=
  [0x42, 0x41, 0, 0, 42, 0, 0, 0,
   0, 0, 0, 0, 0, 0, 0xF0, 0x3F,
   0, 0, 0, 0, 0, 0, 0, 0x40]

/-- A 34-byte 1-D element at offset 0: zero calibration, data type 2
(16-bit unsigned), sample count 4, sample bytes 01 00 02 00 03 00 04 00
(the buffer of scenario C of the spec). -/
def bufC4 : List Nat :=
  List.replicate 20 0 ++ [2, 0, 4, 0, 0, 0, 1, 0, 2, 0, 3, 0, 4, 0]

/-- A 50-byte 2-D element header at offset 0 whose X calibration offset is
+0.0 (bits 0) and whose Y calibration offset is -0.0 (bits 2^63): the two
bit patterns differ but compare equal as Python floats. -/
def bufNegZero : List Nat :=
  List.replicate 20 0 ++ [0, 0, 0, 0, 0, 0, 0, 128] ++ List.replicate 12 0
    ++ [2, 0] ++ List.replicate 8 0

/-- A 42-byte 2-D element header at offset 0 whose X calibration offset is
0.0 and whose Y calibration offset is 1.0: unequal as Python floats. -/
def bufAniso : List Nat :=
  List.replicate 20 0 ++ [0, 0, 0, 0, 0, 0, 0xF0, 0x3F] ++ List.replicate 12 0
    ++ [2, 0]

/-- A 44-byte buffer with a valid TimeOnly tag (discriminator 0x4152, time
stamp 7) at offset 0 and an element at offset 8 whose bytes at the 2-D
calibration positions decode to X offset 0.0 and Y offset 1.0. -/
def bufC10 : List Nat :=
  [0x52, 0x41, 0, 0, 7, 0, 0, 0] ++ List.replicate 20 0
    ++ [0, 0, 0, 0, 0, 0, 0xF0, 0x3F] ++ List.replicate 8 0

/-- A 62-byte version-0x210 file: valid header (1-D data, TimeOnly tag, one
element), offset-array offset 62, one dimension descriptor of size 4 with
empty description and units strings, so the dimension array ends exactly at
byte 62. -/
def bufFull : List Nat :=
  [0x49, 0x49, 0x97, 0x01, 0x10, 0x02,
   0x20, 0x41, 0, 0, 0x52, 0x41, 0, 0,
   1, 0, 0, 0, 1, 0, 0, 0, 62, 0, 0, 0, 1, 0, 0, 0,
   4, 0, 0, 0] ++ List.replicate 28 0

/-- A 34-byte version-0x220 header: valid header fields, 8-byte offset-array
offset 0 at bytes 22..30, and the word 2 at bytes 30..34. -/
def bufV220 : List Nat :=
  [0x49, 0x49, 0x97, 0x01, 0x20, 0x02,
   0x20, 0x41, 0, 0, 0x52, 0x41, 0, 0,
   1, 0, 0, 0, 1, 0, 0, 0] ++ List.replicate 8 0 ++ [2, 0, 0, 0]

/-- A 22-byte all-zero buffer: long enough for the fixed header but too
short for the offset-array-offset field at bytes 22..26. -/
def cex22 : List Nat := List.replicate 22 0

lemma pySlice_self_empty (l : List Nat) (a : Nat) : pySlice l a a = [] := by
  unfold pySlice
  apply List.drop_eq_nil_of_le
  rw [List.length_take]
  exact Nat.min_le_left a l.length

lemma unpackF64_of_len (bs : List Nat) (h : bs.length = 8) :
    unpackF64 bs = .ok (intFromBytesLE bs) := by
  unfold unpackF64
  rw [if_pos h]

lemma unpackF64_or (bs : List Nat) :
    unpackF64 bs = .ok (intFromBytesLE bs) ∨ unpackF64 bs = .error .outOfBounds := by
  unfold unpackF64
  by_cases h : bs.length = 8
  · left; rw [if_pos h]
  · right; rw [if_neg h]

lemma unpackU16_or (bs : List Nat) :
    unpackU16 bs = .ok (intFromBytesLE bs) ∨ unpackU16 bs = .error .outOfBounds := by
  unfold unpackU16
  by_cases h : bs.length = 2
  · left; rw [if_pos h]
  · right; rw [if_neg h]

/-- C1. The decoded offset arrays do not consist of consecutive W-byte
words: the loops keep the slice start fixed while the end grows, so entry 1
of the data offset array over bytes 01 00 00 00 02 00 00 00 is the
little-endian value of the whole 8-byte prefix, 8589934593, not the word 2
stored at offsetArrayOffset + 1*W; likewise for the tag offset array. -/
theorem c1_offset_array_growing_slice :
    get_Data_Offset_Array bufC1 0 0x210 2 = .ok [1, 8589934593]
    ∧ intFromBytesLE (pySlice bufC1 4 8) = 2
    ∧ get_Tag_Offset_Array bufC1t 0 0x210 2 2 = .ok [3, 17179869187]
    ∧ intFromBytesLE (pySlice bufC1t 12 16) = 4 :=
  ⟨rfl, rfl, rfl, rfl⟩

/-- C2. The dimension loop advances its cursor only by the variable string
lengths, not by the 32 fixed bytes: on a two-descriptor buffer with empty
strings, descriptor 1 is decoded from the same bytes as descriptor 0 (size
5 read again at byte 30), not from the bytes 32 further on (byte 62, where
the word 7 lies). -/
theorem c2_dimension_cursor_missing_fixed_bytes :
    dimLoop bufC2 4 2 0
      = .ok ([⟨5, 0, 0, 0, 0, [], 0, none⟩, ⟨5, 0, 0, 0, 0, [], 0, none⟩], 0)
    ∧ intFromBytesLE (pySlice bufC2 62 66) = 7 :=
  ⟨rfl, rfl⟩

/-- C3. get_Time_and_PositionTag never succeeds: its position Y field is
unpacked from the empty slice byte_array[TagOffset+16 : TagOffset+16], so
the unpack raises on every input; in particular it raises on a complete
24-byte tag whose Y coordinate (the float64 2.0, bits 0x4000000000000000)
sits at bytes 16..24 as the claim describes. -/
theorem c3_position_tag_empty_slice (buf : List Nat) (tOff hid : Nat) :
    exceptIsOk (get_Time_and_PositionTag buf tOff hid) = false
    ∧ get_Time_and_PositionTag bufC3 0 0x4142 = .error .outOfBounds
    ∧ intFromBytesLE (pySlice bufC3 16 24) = 0x4000000000000000 := by
  refine ⟨?_, rfl, rfl⟩
  unfold get_Time_and_PositionTag
  by_cases h : intFromBytesLE (pySlice buf tOff (tOff + 4)) = hid
  · rw [if_pos h]
    rcases unpackF64_or (pySlice buf (tOff + 8) (tOff + 16)) with h1 | h1 <;>
      rw [h1, pySlice_self_empty] <;> rfl
  · rw [if_neg h]
    rfl

/-- C4. The 1-D branch of the element loop calls get_1DdataElementData,
a name no def in the module binds, so on the scenario-C element it raises
NameError instead of decoding; the sample reader modelled from the spec
yields [1, 2, 3, 4] on that element for data type 2 and
UnsupportedSampleEncoding for any other data type code such as 3. -/
theorem c4_oneD_data_function_undefined :
    oneDBranch bufC4 0 0x4120 0x4152 = .error .nameError
    ∧ spec_1DdataElementData bufC4 0 2 4 = .ok [1, 2, 3, 4]
    ∧ spec_1DdataElementData bufC4 0 3 4 = .error .unsupportedSampleEncoding
    ∧ moduleDefNames.contains oneD_data_name = false :=
  ⟨rfl, rfl, rfl, rfl⟩

/-- C5 counterexample. A read primitive over an out-of-range span succeeds:
on a 22-byte buffer the offset-array-offset read spans bytes 22..26, past
the end, yet returns the value 0 instead of failing. -/
theorem c5_out_of_range_read_succeeds :
    get_Offset_Array_Offset cex22 0x210 = .ok (4, 0) ∧ cex22.length < 22 + 4 :=
  ⟨rfl, by decide⟩

/-- C5 (amended). The reads implemented with struct.unpack fail when their
fixed-width span is not fully inside the buffer: the float64 reads (8-byte
spans), the 2-byte dataType read, and the 16-bit sample-array unpack.  The
reads implemented with int.from_bytes - the fixed-width integer and offset
fields - never fail on out-of-range spans, since Python slicing clamps the
span: a read starting at or past the end returns 0, the
offset-array-offset read always succeeds with the value of the clamped
span, and a slice only ever contains bytes of the buffer (no adjacent
memory is read). -/
theorem c5_amended_bounds_behavior (buf : List Nat) (pos len : Nat) :
    (buf.length < pos + 8 → unpackF64 (pySlice buf pos (pos + 8)) = .error .outOfBounds)
    ∧ (buf.length < pos + 2 → unpackU16 (pySlice buf pos (pos + 2)) = .error .outOfBounds)
    ∧ (∀ dID sx sy, 0 < sx * sy → buf.length < pos + 50 + 2 * (sx * sy) →
        get_2DdataElementData buf pos dID 2 sx sy = .error .outOfBounds)
    ∧ (buf.length ≤ pos → intFromBytesLE (pySlice buf pos (pos + len)) = 0)
    ∧ get_Offset_Array_Offset buf 0x210 = .ok (4, intFromBytesLE (pySlice buf 22 26))
    ∧ (∀ x, x ∈ pySlice buf pos (pos + len) → x ∈ buf) := by
  refine ⟨?_, ?_, ?_, ?_, rfl, ?_⟩
  · intro h
    have hlen : (pySlice buf pos (pos + 8)).length ≠ 8 := by
      unfold pySlice
      rw [List.length_drop, List.length_take]
      omega
    unfold unpackF64
    rw [if_neg hlen]
  · intro h
    have hlen : (pySlice buf pos (pos + 2)).length ≠ 2 := by
      unfold pySlice
      rw [List.length_drop, List.length_take]
      omega
    unfold unpackU16
    rw [if_neg hlen]
  · intro dID sx sy hk hb
    have hlen : (pySlice buf (pos + 50) (pos + 50 + sx * sy * 2)).length ≠ 2 * (sx * sy) := by
      unfold pySlice
      rw [List.length_drop, List.length_take]
      omega
    unfold get_2DdataElementData
    rw [if_pos rfl]
    simp only [if_neg hlen]
  · intro h
    have he : pySlice buf pos (pos + len) = [] := by
      unfold pySlice
      apply List.drop_eq_nil_of_le
      rw [List.length_take]
      omega
    rw [he]
    rfl
  · intro x hx
    unfold pySlice at hx
    exact List.take_subset _ _ (List.drop_subset _ _ hx)

/-- C5 witness: the amended theorem at the 22-byte buffer - the float64
read at bytes 22..30, the 2-byte read at bytes 22..24, the sample unpack
of a 2 by 2 element at offset 0, and the clamped integer read at bytes
22..26. -/
theorem c5_amended_witness :
    unpackF64 (pySlice cex22 22 30) = .error .outOfBounds
    ∧ unpackU16 (pySlice cex22 22 24) = .error .outOfBounds
    ∧ get_2DdataElementData cex22 0 0x4122 2 2 2 = .error .outOfBounds
    ∧ intFromBytesLE (pySlice cex22 22 26) = 0 :=
  ⟨(c5_amended_bounds_behavior cex22 22 4).1 (by decide),
   (c5_amended_bounds_behavior cex22 22 4).2.1 (by decide),
   (c5_amended_bounds_behavior cex22 0 4).2.2.1 0x4122 2 2 (by decide) (by decide),
   (c5_amended_bounds_behavior cex22 22 4).2.2.2.1 (by decide)⟩

lemma twoD_header_mismatch_iff (buf : List Nat) (off dataID tagID : Nat)
    (ht : tagID = 0x4152 ∨ tagID = 0x4142)
    (h1 : (pySlice buf off (off + 8)).length = 8)
    (h2 : (pySlice buf (off + 8) (off + 16)).length = 8)
    (h3 : (pySlice buf (off + 20) (off + 28)).length = 8)
    (h4 : (pySlice buf (off + 28) (off + 36)).length = 8) :
    get_2DdataElementHeader buf off dataID tagID = .error .anisotropicCalibrationMismatch
      ↔ (pyFloatEq (intFromBytesLE (pySlice buf off (off + 8)))
            (intFromBytesLE (pySlice buf (off + 20) (off + 28)))
          && pyFloatEq (intFromBytesLE (pySlice buf (off + 8) (off + 16)))
            (intFromBytesLE (pySlice buf (off + 28) (off + 36)))) = false := by
  unfold get_2DdataElementHeader
  rw [if_pos ht, unpackF64_of_len _ h1, unpackF64_of_len _ h2,
    unpackF64_of_len _ h3, unpackF64_of_len _ h4]
  by_cases e1 : pyFloatEq (intFromBytesLE (pySlice buf off (off + 8)))
      (intFromBytesLE (pySlice buf (off + 20) (off + 28))) = true
  · by_cases e2 : pyFloatEq (intFromBytesLE (pySlice buf (off + 8) (off + 16)))
        (intFromBytesLE (pySlice buf (off + 28) (off + 36))) = true
    · rcases unpackU16_or (pySlice buf (off + 40) (off + 42)) with h5 | h5 <;>
        simp [e1, e2, h5]
    · simp [e1, e2]
  · simp [e1]

/-- C6 counterexample. A 2-D element whose X calibration offset is +0.0
(bits 0) and whose Y calibration offset is -0.0 (bits 2^63) decodes
successfully although the two bit patterns differ, because the source
compares the decoded Python floats, not their bit patterns. -/
theorem c6_negative_zero_passes_check :
    get_2DdataElementHeader bufNegZero 0 0x4122 0x4152
      = .ok ⟨0, 0, 0, 9223372036854775808, 0, 0, 2, 0, 0⟩
    ∧ intFromBytesLE (pySlice bufNegZero 0 8)
        ≠ intFromBytesLE (pySlice bufNegZero 20 28) :=
  ⟨rfl, by decide⟩

/-- C6 (amended). When the four calibration float64 spans are in range, the
2-D element-header decode fails with AnisotropicCalibrationMismatch exactly
when the X and Y offsets or the X and Y deltas compare unequal as IEEE-754
doubles (Python float equality on the decoded values): bit-identical
non-NaN pairs pass, a +0.0 and -0.0 pair passes although the bit patterns
differ, and a bit-identical NaN pair fails. -/
theorem c6_amended_float_equality (buf : List Nat) (off dataID tagID : Nat)
    (ht : tagID = 0x4152 ∨ tagID = 0x4142)
    (h1 : (pySlice buf off (off + 8)).length = 8)
    (h2 : (pySlice buf (off + 8) (off + 16)).length = 8)
    (h3 : (pySlice buf (off + 20) (off + 28)).length = 8)
    (h4 : (pySlice buf (off + 28) (off + 36)).length = 8) :
    get_2DdataElementHeader buf off dataID tagID = .error .anisotropicCalibrationMismatch
      ↔ (pyFloatEq (intFromBytesLE (pySlice buf off (off + 8)))
            (intFromBytesLE (pySlice buf (off + 20) (off + 28)))
          && pyFloatEq (intFromBytesLE (pySlice buf (off + 8) (off + 16)))
            (intFromBytesLE (pySlice buf (off + 28) (off + 36)))) = false :=
  twoD_header_mismatch_iff buf off dataID tagID ht h1 h2 h3 h4

/-- C6 witness: the amended theorem applied to a concrete element whose X
offset is 0.0 and whose Y offset is 1.0. -/
theorem c6_amended_witness :
    get_2DdataElementHeader bufAniso 0 0x4122 0x4152
      = .error .anisotropicCalibrationMismatch :=
  (c6_amended_float_equality bufAniso 0 0x4122 0x4152 (Or.inl rfl)
    (by decide) (by decide) (by decide) (by decide)).mpr (by decide)

/-- C7. Both tag decoders fail with TagTypeMismatch exactly when the 4-byte
discriminator re-read at the tag offset differs from the header tag type
ID; when it agrees, neither decoder produces that error.  In particular a
TimeOnly header (0x4152) over a tag whose own discriminator decodes to the
TimeAndPosition code 0x4142 fails with TagTypeMismatch. -/
theorem c7_tag_discriminator_check (buf : List Nat) (tOff hid : Nat) :
    (get_TimeOnlyTag buf tOff hid = .error .tagTypeMismatch
      ↔ intFromBytesLE (pySlice buf tOff (tOff + 4)) ≠ hid)
    ∧ (get_Time_and_PositionTag buf tOff hid = .error .tagTypeMismatch
      ↔ intFromBytesLE (pySlice buf tOff (tOff + 4)) ≠ hid)
    ∧ get_TimeOnlyTag bufC3 0 0x4152 = .error .tagTypeMismatch := by
  refine ⟨?_, ?_, rfl⟩
  · unfold get_TimeOnlyTag
    by_cases h : intFromBytesLE (pySlice buf tOff (tOff + 4)) = hid <;> simp [h]
  · unfold get_Time_and_PositionTag
    by_cases h : intFromBytesLE (pySlice buf tOff (tOff + 4)) = hid
    · rw [if_pos h]
      rcases unpackF64_or (pySlice buf (tOff + 8) (tOff + 16)) with h1 | h1 <;>
        rw [h1, pySlice_self_empty] <;> simp [h, unpackF64]
    · rw [if_neg h]
      simp [h]

/-- C10. One element-loop iteration runs the 2-D element-header decoder for
every element no matter what the data type ID is (line 668), so with a
valid TimeOnly tag, in-range calibration spans, and X and Y calibration
values that compare unequal as Python floats, the iteration fails with
AnisotropicCalibrationMismatch for every dataID, including the 1-D code
0x4120. -/
theorem c10_unconditional_twoD_header (buf : List Nat) (tOff dOff dataID ts : Nat)
    (htag : get_TimeOnlyTag buf tOff 0x4152 = .ok ts)
    (h1 : (pySlice buf dOff (dOff + 8)).length = 8)
    (h2 : (pySlice buf (dOff + 8) (dOff + 16)).length = 8)
    (h3 : (pySlice buf (dOff + 20) (dOff + 28)).length = 8)
    (h4 : (pySlice buf (dOff + 28) (dOff + 36)).length = 8)
    (hne : (pyFloatEq (intFromBytesLE (pySlice buf dOff (dOff + 8)))
            (intFromBytesLE (pySlice buf (dOff + 20) (dOff + 28)))
          && pyFloatEq (intFromBytesLE (pySlice buf (dOff + 8) (dOff + 16)))
            (intFromBytesLE (pySlice buf (dOff + 28) (dOff + 36)))) = false) :
    processElement buf 0x4152 dataID tOff dOff = .error .anisotropicCalibrationMismatch := by
  have h2d := (twoD_header_mismatch_iff buf dOff dataID 0x4152 (Or.inl rfl)
    h1 h2 h3 h4).mpr hne
  have htp : tagPart buf 0x4152 tOff = .ok (some ts, none) := by
    unfold tagPart
    rw [if_pos rfl, htag]
  unfold processElement
  rw [htp, h2d]

/-- C10 witness: on a buffer bearing a valid TimeOnly tag at offset 0 and a
1-D element at offset 8 whose 2-D calibration positions decode to 0.0 and
1.0, the iteration with the 1-D data code fails with the 2-D calibration
error. -/
theorem c10_unconditional_twoD_header_witness :
    processElement bufC10 0x4152 0x4120 0 8 = .error .anisotropicCalibrationMismatch :=
  c10_unconditional_twoD_header bufC10 0 8 0x4120 7 rfl
    (by decide) (by decide) (by decide) (by decide) (by decide)

lemma dimLoop_ok_sum (buf : List Nat) (w : Nat) :
    ∀ (n dm : Nat) (recs : List DimRecord) (dmEnd : Nat),
      dimLoop buf w n dm = .ok (recs, dmEnd) →
      dmEnd = dm + (recs.map fun r => r.descriptionLength + r.unitsLength).sum := by
  intro n
  induction n with
  | zero =>
    intro dm recs dmEnd h
    unfold dimLoop at h
    simp only [Except.ok.injEq, Prod.mk.injEq] at h
    obtain ⟨h1, h2⟩ := h
    subst h1
    subst h2
    simp
  | succ n ih =>
    intro dm recs dmEnd h
    unfold dimLoop at h
    cases hc : get_Calibration_Element buf w dm with
    | error e =>
      rw [hc] at h
      exact absurd h (by simp)
    | ok tri =>
      obtain ⟨ce, co, cd⟩ := tri
      rw [hc] at h
      simp only [] at h
      cases hr : dimLoop buf w n
          (dm + get_Description_Length buf w dm
            + get_Units_Length buf w (get_Description_Length buf w dm) dm) with
      | error e =>
        rw [hr] at h
        exact absurd h (by simp)
      | ok pr =>
        obtain ⟨rest, dmE⟩ := pr
        rw [hr] at h
        simp only [Except.ok.injEq, Prod.mk.injEq] at h
        obtain ⟨h1, h2⟩ := h
        subst h2
        subst h1
        have hs := ih
          (dm + get_Description_Length buf w dm
            + get_Units_Length buf w (get_Description_Length buf w dm) dm)
          rest dmE hr
        simp only [List.map_cons, List.sum_cons]
        omega

/-- C8. With the header decoded and the dimension loop finished at cursor
value dmEnd (which equals the sum of all decoded description and units
string lengths), the dimension phase succeeds with the decoded descriptors
exactly when 26 + W (the base after the header) + 32 * numDimensions + that
sum equals the header offsetArrayOffset; on mismatch the whole decode fails
with DimensionArrayMisaligned, and on equality the decode proceeds to the
offset-array phase. -/
theorem c8_dimension_alignment (buf : List Nat) (h : SeriesHeader)
    (recs : List DimRecord) (dmEnd : Nat)
    (hh : headerPhase buf = .ok h)
    (hl : dimLoop buf h.offsetWidth h.numDimensions 0 = .ok (recs, dmEnd)) :
    (dimensionPhase buf h.offsetWidth h.numDimensions h.offsetArrayOffset = .ok recs
      ↔ 26 + h.offsetWidth + (32 * h.numDimensions + dmEnd) = h.offsetArrayOffset)
    ∧ (26 + h.offsetWidth + (32 * h.numDimensions + dmEnd) ≠ h.offsetArrayOffset →
        decodeSeries buf = .error .dimensionArrayMisaligned)
    ∧ (26 + h.offsetWidth + (32 * h.numDimensions + dmEnd) = h.offsetArrayOffset →
        decodeSeries buf = restPhase buf h recs)
    ∧ dmEnd = (recs.map fun r => r.descriptionLength + r.unitsLength).sum := by
  have hdp : dimensionPhase buf h.offsetWidth h.numDimensions h.offsetArrayOffset
      = if 26 + h.offsetWidth + (32 * h.numDimensions + dmEnd) = h.offsetArrayOffset
        then .ok recs else .error .dimensionArrayMisaligned := by
    unfold dimensionPhase
    rw [hl]
  have hsum := dimLoop_ok_sum buf h.offsetWidth h.numDimensions 0 recs dmEnd hl
  by_cases he : 26 + h.offsetWidth + (32 * h.numDimensions + dmEnd) = h.offsetArrayOffset
  · refine ⟨?_, ?_, ?_, by omega⟩
    · rw [hdp, if_pos he]
      simp [he]
    · intro hne
      exact absurd he hne
    · intro _
      unfold decodeSeries
      simp only [hh]
      rw [hdp, if_pos he]
  · refine ⟨?_, ?_, ?_, by omega⟩
    · rw [hdp, if_neg he]
      simp [he]
    · intro _
      unfold decodeSeries
      simp only [hh]
      rw [hdp, if_neg he]
    · intro hc
      exact absurd hc he

/-- C8 witness: on the 62-byte well-formed file the header decodes, the
single-descriptor loop ends at cursor 0, and 26 + 4 + 32 * 1 + 0 = 62
equals the offset-array offset, so the dimension phase succeeds. -/
theorem c8_dimension_alignment_witness :
    dimensionPhase bufFull 4 1 62 = .ok [⟨4, 0, 0, 0, 0, [], 0, none⟩] :=
  (c8_dimension_alignment bufFull ⟨0x210, 0x4120, 0x4152, 1, 1, 4, 62, 1⟩
    [⟨4, 0, 0, 0, 0, [], 0, none⟩] 0 rfl rfl).1.mpr (by decide)

/-- C9. For any buffer whose header decodes, version 0x210 resolves the
offset width to 4, with the offset-array offset read at bytes 22..26 and
the number of dimensions read starting at byte 26 (22 + 4); version 0x220
resolves the width to 8, with the offset read at bytes 22..30 and the
number of dimensions read starting at byte 30 (22 + 8). -/
theorem c9_version_resolves_width (buf : List Nat) (h : SeriesHeader)
    (hh : headerPhase buf = .ok h) :
    (h.seriesVersion = 0x210 →
      h.offsetWidth = 4
      ∧ h.offsetArrayOffset = intFromBytesLE (pySlice buf 22 26)
      ∧ h.numDimensions = intFromBytesLE (pySlice buf 26 30))
    ∧ (h.seriesVersion = 0x220 →
      h.offsetWidth = 8
      ∧ h.offsetArrayOffset = intFromBytesLE (pySlice buf 22 30)
      ∧ h.numDimensions = intFromBytesLE (pySlice buf 30 34)) := by
  unfold headerPhase at hh
  split at hh
  · exact absurd hh (by simp)
  · split at hh
    · exact absurd hh (by simp)
    · split at hh
      · exact absurd hh (by simp)
      · split at hh
        · exact absurd hh (by simp)
        · simp only [Except.ok.injEq] at hh
          subst hh
          constructor
          · intro hv
            simp only at hv
            subst hv
            unfold get_Offset_Array_Offset at *
            simp only [if_pos] at *
            rename_i hv4
            simp at hv4
            obtain ⟨hw, ho⟩ := hv4
            subst hw
            subst ho
            refine ⟨rfl, rfl, ?_⟩
            show intFromBytesLE (pySlice buf (22 + 4) (22 + 4 + 4))
              = intFromBytesLE (pySlice buf 26 30)
            norm_num
          · intro hv
            simp only at hv
            subst hv
            rename_i hv4
            unfold get_Offset_Array_Offset at hv4
            simp at hv4
            obtain ⟨hw, ho⟩ := hv4
            subst hw
            subst ho
            refine ⟨rfl, rfl, ?_⟩
            show intFromBytesLE (pySlice buf (22 + 8) (22 + 8 + 4))
              = intFromBytesLE (pySlice buf 30 34)
            norm_num

/-- C9 witness: the theorem applied to the version-0x210 file bufFull and
the version-0x220 header bufV220. -/
theorem c9_version_resolves_width_witness :
    ((⟨0x210, 0x4120, 0x4152, 1, 1, 4, 62, 1⟩ : SeriesHeader).offsetWidth = 4
      ∧ (⟨0x210, 0x4120, 0x4152, 1, 1, 4, 62, 1⟩ : SeriesHeader).offsetArrayOffset
          = intFromBytesLE (pySlice bufFull 22 26)
      ∧ (⟨0x210, 0x4120, 0x4152, 1, 1, 4, 62, 1⟩ : SeriesHeader).numDimensions
          = intFromBytesLE (pySlice bufFull 26 30))
    ∧ ((⟨0x220, 0x4120, 0x4152, 1, 1, 8, 0, 2⟩ : SeriesHeader).offsetWidth = 8
      ∧ (⟨0x220, 0x4120, 0x4152, 1, 1, 8, 0, 2⟩ : SeriesHeader).offsetArrayOffset
          = intFromBytesLE (pySlice bufV220 22 30)
      ∧ (⟨0x220, 0x4120, 0x4152, 1, 1, 8, 0, 2⟩ : SeriesHeader).numDimensions
          = intFromBytesLE (pySlice bufV220 30 34)) :=
  ⟨(c9_version_resolves_width bufFull ⟨0x210, 0x4120, 0x4152, 1, 1, 4, 62, 1⟩ rfl).1 rfl,
   (c9_version_resolves_width bufV220 ⟨0x220, 0x4120, 0x4152, 1, 1, 8, 0, 2⟩ rfl).2 rfl⟩
